import Mathlib

/-!
Verification of the yunikorn-history-server component health-aggregation
subsystem and of the history repository / SPA routing code, via a shallow
embedding in Lean.

The embedding keeps the source's names where possible.  The health package
itself (Service, Liveness, Readiness, Component and its two variants) is not
present under src/: only its integration test and its HTTP caller are.  Those
definitions are therefore modelled from the spec, and each such definition
carries a doc comment saying so.
-/

namespace UHS

/-- Go `time.Time`, reduced to the one observation the code makes of it:
`UnixNano`.  Equality of `Time` values models equality of Go times. -/
structure Time where
  unixNano : Int
deriving DecidableEq

/-- Go `time.Time.UnixNano`. -/
def Time.UnixNano (t : Time) : Int := t.unixNano

/-- One HTTP request issued by the scheduler REST client, reduced to the
observable wire-protocol facts the spec states: method and path. -/
structure Request where
  method : String
  path : String
deriving DecidableEq

/-- Result of evaluating one component at one instant
(`health.ComponentStatus`): identifier, healthy flag, error message
(empty string models the absent / zero-value Go string). -/
structure ComponentStatus where
  Identifier : String
  Healthy : Bool
  Error : String
deriving DecidableEq

/-- Aggregate result returned to a caller (`health.Status`). -/
structure Status where
  Healthy : Bool
  ComponentStatuses : List ComponentStatus
  StartedAt : Time
  Version : String
deriving DecidableEq

/-- Modelled from the spec: the scheduler REST client capability
(`CheckHealth(ctx) → (ok bool, err error)` in section 6), whose Go
implementation is not under src/.  `respond r = none` models a 2xx response to
request `r`; `respond r = some msg` models a non-2xx response or a transport
error whose full underlying error message is `msg`. -/
structure SchedulerClient where
  respond : Request → Option String

/-- Modelled from the spec: the database connection-pool capability
(`Ping(ctx) → error` in section 6), whose Go implementation is not under
src/.  `ping = none` models a successful ping; `ping = some msg` models a pool
error with message `msg`. -/
structure DbPool where
  ping : Option String

/-- The fixed endpoint the scheduler component probes
(`GET /ws/v1/scheduler/healthcheck`), as pinned by the integration test's
expected error prefix and by `routeSchedulerHealthcheck` in routes.go. -/
def yunikornHealthCheckRequest : Request :=
  { method := "GET", path := "/ws/v1/scheduler/healthcheck" }

/-- Modelled from the spec: `health.Component`, the polymorphic capability
contract of section 4.1, not under src/.  Following the spec's design note it
is a tagged variant with the two leaf implementations the test constructs
(`NewYunikornComponent`, `NewPostgresComponent`); each carries the injected
collaborator whose behaviour determines the dependency's state. -/
inductive Component where
  | yunikorn (client : SchedulerClient)
  | postgres (pool : DbPool)

/-- Modelled from the spec: `Component.Identifier()`, a stable lowercase name
("yunikorn", "postgres" per the test and the data-model table). -/
def Component.Identifier : Component → String
  | .yunikorn _ => "yunikorn"
  | .postgres _ => "postgres"

/-- Modelled from the spec: `Component.HealthCheck(ctx)`, section 4.1: one
probe of the underlying dependency, every failure captured as
`ComponentStatus{healthy:false, error:<message>}`, never raised.  The second
component of the result is the log of outbound scheduler requests issued
during the call (the spec requires exactly one request, and no retry, for the
scheduler component). -/
def Component.HealthCheck : Component → ComponentStatus × List Request
  | .yunikorn client =>
    match client.respond yunikornHealthCheckRequest with
    | none => ({ Identifier := "yunikorn", Healthy := true, Error := "" },
               [yunikornHealthCheckRequest])
    | some msg => ({ Identifier := "yunikorn", Healthy := false, Error := msg },
                   [yunikornHealthCheckRequest])
  | .postgres pool =>
    match pool.ping with
    | none => ({ Identifier := "postgres", Healthy := true, Error := "" }, [])
    | some msg => ({ Identifier := "postgres", Healthy := false, Error := msg }, [])

/-- The dependency-check outcome a component will observe: `none` when the
dependency is healthy, `some msg` when it fails with message `msg`.  For the
scheduler component this is the client's answer at the fixed endpoint; for the
database component it is the pool's ping result. -/
def Component.depError : Component → Option String
  | .yunikorn client => client.respond yunikornHealthCheckRequest
  | .postgres pool => pool.ping

/-- `health.Service`: start timestamp, version string and the fixed list of
registered components, all set at construction (test lines 41-45). -/
structure Service where
  startedAt : Time
  version : String
  components : List Component

/-- Modelled from the spec: `Service.Liveness(ctx)`, section 4.2 — always
healthy, empty component-status collection, the stored start time and
version; it consults no dependency.  Not under src/. -/
def Service.Liveness (s : Service) : Status :=
  { Healthy := true
    ComponentStatuses := []
    StartedAt := s.startedAt
    Version := s.version }

/-- Modelled from the spec: `Service.Readiness(ctx)`, section 4.2 — invoke
`HealthCheck` on every registered component independently, collect one
`ComponentStatus` per component, aggregate `healthy` as the logical AND, and
return the stored start time and version.  Not under src/. -/
def Service.Readiness (s : Service) : Status :=
  let statuses := s.components.map fun c => (Component.HealthCheck c).1
  { Healthy := statuses.all fun cs => cs.Healthy
    ComponentStatuses := statuses
    StartedAt := s.startedAt
    Version := s.version }

/- Concrete fixtures used by witness theorems, mirroring the integration
test: a scheduler client whose host does not resolve, a healthy scheduler
client, and a healthy pool. -/

/-- A scheduler client for which every request fails with the transport error
the integration test expects (a DNS lookup failure). -/
def clientDown : SchedulerClient :=
  { respond := fun _ => some "dial tcp: lookup invalid-host" }

/-- A scheduler client answering every request with a 2xx response. -/
def clientUp : SchedulerClient := { respond := fun _ => none }

/-- A healthy database pool. -/
def poolUp : DbPool := { ping := none }

/-- The service of the integration test's first subtest: an unreachable
scheduler and a healthy database, started at time 0 with version "1.0.0". -/
def svcMixed : Service :=
  { startedAt := { unixNano := 0 }
    version := "1.0.0"
    components := [Component.yunikorn clientDown, Component.postgres poolUp] }

/-- Identifier is preserved from the component into the status it produces. -/
theorem healthCheck_fst_identifier (c : Component) :
    (Component.HealthCheck c).1.Identifier = c.Identifier := by
  cases c with
  | yunikorn client =>
    cases h : client.respond yunikornHealthCheckRequest <;>
      simp [Component.HealthCheck, Component.Identifier, h]
  | postgres pool =>
    cases h : pool.ping <;>
      simp [Component.HealthCheck, Component.Identifier, h]

/-- The statuses collected by `Readiness` are the health-check results of the
registered components, in order. -/
theorem readiness_componentStatuses (s : Service) :
    (s.Readiness).ComponentStatuses
      = s.components.map fun c => (Component.HealthCheck c).1 := rfl

/-- C1: for every list of registered components, the `Status` returned by
`Readiness` has `healthy` equal to the logical AND of the healthy flags of
all its `ComponentStatuses`: `healthy` is true iff every
`ComponentStatus.healthy` is true, and for the empty component list `healthy`
is vacuously true. -/
theorem readiness_healthy_iff_all_components_healthy (s : Service) :
    ((s.Readiness).Healthy
        = ((s.Readiness).ComponentStatuses.all fun cs => cs.Healthy))
    ∧ ((s.Readiness).Healthy = true
        ↔ ∀ cs ∈ (s.Readiness).ComponentStatuses, cs.Healthy = true)
    ∧ (Service.mk s.startedAt s.version []).Readiness.Healthy = true := by
  refine ⟨rfl, ?_, rfl⟩
  simp [Service.Readiness]

/-- C2: for every list of registered components, the `Status` returned by
`Readiness` contains exactly one `ComponentStatus` per registered component,
regardless of any check's outcome (the behaviour of every dependency is
carried inside the component values the statement quantifies over): the
collection's size equals the number of components, the multiset of returned
identifiers equals the multiset of registered identifiers, and when the
registered identifiers are pairwise distinct each appears exactly once. -/
theorem readiness_one_status_per_component (s : Service) :
    ((s.Readiness).ComponentStatuses.length = s.components.length)
    ∧ ((s.Readiness).ComponentStatuses.map ComponentStatus.Identifier
        = s.components.map Component.Identifier)
    ∧ ((s.components.map Component.Identifier).Nodup →
        ∀ id ∈ s.components.map Component.Identifier,
          ((s.Readiness).ComponentStatuses.map ComponentStatus.Identifier).count id
            = 1) := by
  have hmap : (s.Readiness).ComponentStatuses.map ComponentStatus.Identifier
      = s.components.map Component.Identifier := by
    simp only [readiness_componentStatuses, List.map_map]
    exact List.map_congr_left fun c _ => healthCheck_fst_identifier c
  refine ⟨?_, hmap, ?_⟩
  · simp [readiness_componentStatuses]
  · intro hnodup id hid
    rw [hmap]
    exact List.count_eq_one_of_mem hnodup hid

/-- C2 witness: the mixed service of the integration test has two components
with distinct identifiers, and `Readiness` reports each exactly once. -/
theorem readiness_one_status_per_component_witness :
    ((svcMixed.Readiness).ComponentStatuses.length = svcMixed.components.length)
    ∧ ((svcMixed.Readiness).ComponentStatuses.map ComponentStatus.Identifier
        = svcMixed.components.map Component.Identifier)
    ∧ (((svcMixed.Readiness).ComponentStatuses.map ComponentStatus.Identifier).count
          "yunikorn" = 1) := by
  have h := readiness_one_status_per_component svcMixed
  refine ⟨h.1, h.2.1, ?_⟩
  exact h.2.2 (by decide) "yunikorn" (by decide)

/-- C3: `Readiness` and `Liveness` are total functions into `Status` (the
embedding has no error or panic outcome): every call returns a status
carrying the stored start time and version and one entry per component, and
every dependency-check failure surfaces inside the returned data as a
`ComponentStatus` with `healthy` false and the failure's error message, for
every behaviour of the underlying dependencies. -/
theorem readiness_liveness_never_fail (s : Service) :
    ((s.Readiness).StartedAt = s.startedAt)
    ∧ ((s.Readiness).Version = s.version)
    ∧ ((s.Readiness).ComponentStatuses.length = s.components.length)
    ∧ ((s.Liveness).StartedAt = s.startedAt)
    ∧ ((s.Liveness).Version = s.version)
    ∧ (∀ c ∈ s.components, ∀ msg, c.depError = some msg →
        ComponentStatus.mk c.Identifier false msg
          ∈ (s.Readiness).ComponentStatuses) := by
  refine ⟨rfl, rfl, by simp [readiness_componentStatuses], rfl, rfl, ?_⟩
  intro c hc msg hmsg
  rw [readiness_componentStatuses]
  refine List.mem_map.mpr ⟨c, hc, ?_⟩
  cases c with
  | yunikorn client =>
    simp only [Component.depError] at hmsg
    simp [Component.HealthCheck, Component.Identifier, hmsg]
  | postgres pool =>
    simp only [Component.depError] at hmsg
    simp [Component.HealthCheck, Component.Identifier, hmsg]

/-- C3 witness: in the mixed service the scheduler dependency fails with a
DNS transport error, and that failure appears in the returned data as an
unhealthy `ComponentStatus` carrying the message — the call itself returns a
fully-populated `Status`. -/
theorem readiness_liveness_never_fail_witness :
    ((svcMixed.Readiness).StartedAt = svcMixed.startedAt)
    ∧ (ComponentStatus.mk "yunikorn" false "dial tcp: lookup invalid-host"
        ∈ (svcMixed.Readiness).ComponentStatuses) := by
  have h := readiness_liveness_never_fail svcMixed
  exact ⟨h.1, h.2.2.2.2.2 (Component.yunikorn clientDown) (List.Mem.head _)
    "dial tcp: lookup invalid-host" rfl⟩

/-- C4: for every `ComponentStatus` produced by a component's `HealthCheck`,
provided the dependency never fails with an empty message (Go error messages
are non-empty), the error field is non-empty iff the healthy flag is false. -/
theorem componentStatus_error_iff_unhealthy (c : Component)
    (h : c.depError ≠ some "") :
    ((Component.HealthCheck c).1.Error ≠ ""
      ↔ (Component.HealthCheck c).1.Healthy = false) := by
  cases c with
  | yunikorn client =>
    simp only [Component.depError] at h
    cases hr : client.respond yunikornHealthCheckRequest with
    | none => simp [Component.HealthCheck, hr]
    | some msg =>
      rw [hr] at h
      simp only [Component.HealthCheck, hr]
      simpa using fun hmsg => h (by rw [hmsg])
  | postgres pool =>
    simp only [Component.depError] at h
    cases hr : pool.ping with
    | none => simp [Component.HealthCheck, hr]
    | some msg =>
      rw [hr] at h
      simp only [Component.HealthCheck, hr]
      simpa using fun hmsg => h (by rw [hmsg])

/-- C4 witness: the failing scheduler component of the integration test has a
non-empty dependency error, and its status is unhealthy with a non-empty
error message. -/
theorem componentStatus_error_iff_unhealthy_witness :
    ((Component.yunikorn clientDown).depError ≠ some "")
    ∧ ((Component.HealthCheck (Component.yunikorn clientDown)).1.Error ≠ ""
        ↔ (Component.HealthCheck (Component.yunikorn clientDown)).1.Healthy
            = false) :=
  ⟨by decide, componentStatus_error_iff_unhealthy
    (Component.yunikorn clientDown) (by decide)⟩

/-- C5: for every service state and every state of the dependencies —
`Liveness` consults none of them, so replacing the component list by any
other leaves its result unchanged — `Liveness` returns a `Status` with
`healthy` true, an empty component-status collection, and the stored start
time and version; in the embedding it is a total function with no failure
outcome and no dependency call. -/
theorem liveness_always_healthy_empty (s : Service) (comps : List Component) :
    (s.Liveness
      = { Healthy := true, ComponentStatuses := [], StartedAt := s.startedAt,
          Version := s.version })
    ∧ (Service.mk s.startedAt s.version comps).Liveness = s.Liveness :=
  ⟨rfl, rfl⟩

/-- C6: for one service instance the `startedAt` and `version` fields of the
`Status` returned by every call to `Liveness` or `Readiness` equal the values
stored at construction, whatever the dependency state at the moment of the
call (modelled by an arbitrary component list carrying arbitrary dependency
behaviour), so they are identical across all calls. -/
theorem status_startedAt_version_stable (s : Service) (comps : List Component) :
    (((Service.mk s.startedAt s.version comps).Readiness).StartedAt = s.startedAt)
    ∧ (((Service.mk s.startedAt s.version comps).Readiness).Version = s.version)
    ∧ (((Service.mk s.startedAt s.version comps).Liveness).StartedAt = s.startedAt)
    ∧ (((Service.mk s.startedAt s.version comps).Liveness).Version = s.version) :=
  ⟨rfl, rfl, rfl, rfl⟩

/-- C7: every call of the scheduler component's `HealthCheck` issues exactly
one outbound request, to the fixed endpoint `GET /ws/v1/scheduler/healthcheck`
(no retry), and a non-2xx response or transport error — a `some msg` answer of
the client — yields a `ComponentStatus` with `healthy` false whose error
string is the underlying error message in its entirety. -/
theorem scheduler_component_single_probe (client : SchedulerClient) :
    ((Component.HealthCheck (Component.yunikorn client)).2
        = [{ method := "GET", path := "/ws/v1/scheduler/healthcheck" }])
    ∧ (∀ msg, client.respond yunikornHealthCheckRequest = some msg →
        (Component.HealthCheck (Component.yunikorn client)).1
          = ComponentStatus.mk "yunikorn" false msg)
    ∧ (client.respond yunikornHealthCheckRequest = none →
        (Component.HealthCheck (Component.yunikorn client)).1
          = ComponentStatus.mk "yunikorn" true "") := by
  refine ⟨?_, ?_, ?_⟩
  · show (Component.HealthCheck (Component.yunikorn client)).2
        = [yunikornHealthCheckRequest]
    cases hr : client.respond yunikornHealthCheckRequest <;>
      simp [Component.HealthCheck, hr]
  · intro msg hr; simp [Component.HealthCheck, hr]
  · intro hr; simp [Component.HealthCheck, hr]

/-- C7 witness: the unreachable scheduler client of the integration test
issues exactly one request to the fixed endpoint and reports the transport
error in its entirety. -/
theorem scheduler_component_single_probe_witness :
    ((Component.HealthCheck (Component.yunikorn clientDown)).2
        = [{ method := "GET", path := "/ws/v1/scheduler/healthcheck" }])
    ∧ ((Component.HealthCheck (Component.yunikorn clientDown)).1
        = ComponentStatus.mk "yunikorn" false "dial tcp: lookup invalid-host") :=
  ⟨(scheduler_component_single_probe clientDown).1,
    (scheduler_component_single_probe clientDown).2.1
      "dial tcp: lookup invalid-host" rfl⟩

/-! History repository (repository package, part_001). -/

/-- A SQL parameter value as passed to `Builder.Conditionp` by the
repository: an `int64` (`UnixNano`) or a string (the history type). -/
inductive SqlValue where
  | int (i : Int)
  | str (s : String)
deriving DecidableEq

/-- Order direction of an ORDER BY clause (`sql.OrderByDescending`). -/
inductive OrderDir where
  | ascending
  | descending
deriving DecidableEq

/-- Modelled from the spec: `sql.Builder`
(internal/database/sql, not under src/), the dynamic query builder the
repository calls.  It is modelled as an accumulator of the clauses its
call sites add: SELECT-all targets, parameterised conditions, ORDER BY
clauses, and optional LIMIT and OFFSET. -/
structure Builder where
  selects : List (String × String)
  conditions : List (String × String × SqlValue)
  orderBys : List (String × OrderDir)
  limit : Option Int
  offset : Option Int
deriving DecidableEq

/-- Modelled from the spec: `sql.NewBuilder()` — an empty builder. -/
def NewBuilder : Builder :=
  { selects := [], conditions := [], orderBys := [], limit := none,
    offset := none }

/-- Modelled from the spec: `Builder.SelectAll(table, alias)`. -/
def Builder.SelectAll (b : Builder) (table aliasName : String) : Builder :=
  { b with selects := b.selects ++ [(table, aliasName)] }

/-- Modelled from the spec: `Builder.Conditionp(column, operator, value)` —
appends one parameterised condition. -/
def Builder.Conditionp (b : Builder) (column op : String) (v : SqlValue) :
    Builder :=
  { b with conditions := b.conditions ++ [(column, op, v)] }

/-- Modelled from the spec: `Builder.OrderBy(column, direction)`. -/
def Builder.OrderBy (b : Builder) (column : String) (dir : OrderDir) : Builder :=
  { b with orderBys := b.orderBys ++ [(column, dir)] }

/-- Modelled from the spec: `Builder.Limit(n)`. -/
def Builder.Limit (b : Builder) (n : Int) : Builder := { b with limit := some n }

/-- Modelled from the spec: `Builder.Offset(n)`. -/
def Builder.Offset (b : Builder) (n : Int) : Builder :=
  { b with offset := some n }

/-- `repository.HistoryFilters` (part_001 lines 14-19): optional time range
(`*time.Time`), optional offset and limit (`*int`). -/
structure HistoryFilters where
  TimestampStart : Option Time
  TimestampEnd : Option Time
  Offset : Option Int
  Limit : Option Int

/-- Modelled from the spec: `applyLimitAndOffset(builder, limit, offset)`
(not under src/) — adds a LIMIT clause iff `limit` is non-nil and an OFFSET
clause iff `offset` is non-nil, as its name and call site indicate. -/
def applyLimitAndOffset (b : Builder) (limit offset : Option Int) : Builder :=
  let b1 := match limit with
    | some n => b.Limit n
    | none => b
  match offset with
  | some n => b1.Offset n
  | none => b1

/-- `applyHistoryFilters` (part_001 lines 21-29): a `timestamp >=` condition
iff `TimestampStart` is non-nil, then a `timestamp <=` condition iff
`TimestampEnd` is non-nil, then limit and offset. -/
def applyHistoryFilters (b : Builder) (filters : HistoryFilters) : Builder :=
  let b1 := match filters.TimestampStart with
    | some t => b.Conditionp "timestamp" ">=" (SqlValue.int t.UnixNano)
    | none => b
  let b2 := match filters.TimestampEnd with
    | some t => b1.Conditionp "timestamp" "<=" (SqlValue.int t.UnixNano)
    | none => b1
  applyLimitAndOffset b2 filters.Limit filters.Offset

/-- One row of the `history` table in the column order the queries scan:
id, created_at_nano, deleted_at_nano, history_type, total_number,
timestamp. -/
structure Row where
  id : String
  createdAtNano : Int
  deletedAtNano : Option Int
  historyType : String
  totalNumber : Int
  timestamp : Int

/-- `model.AppHistory`, with the fields the repository reads and writes. -/
structure AppHistory where
  ID : String
  CreatedAtNano : Int
  DeletedAtNano : Option Int
  TotalApplications : Int
  Timestamp : Int

/-- `model.ContainerHistory`, with the fields the repository reads and
writes. -/
structure ContainerHistory where
  ID : String
  CreatedAtNano : Int
  DeletedAtNano : Option Int
  TotalContainers : Int
  Timestamp : Int

/-- One iteration of the scan loop of `GetApplicationsHistory` (the
`history_type` column is scanned into `nil` and dropped). -/
def scanAppRow (r : Row) : AppHistory :=
  { ID := r.id, CreatedAtNano := r.createdAtNano,
    DeletedAtNano := r.deletedAtNano, TotalApplications := r.totalNumber,
    Timestamp := r.timestamp }

/-- One iteration of the scan loop of `GetContainersHistory`. -/
def scanContainerRow (r : Row) : ContainerHistory :=
  { ID := r.id, CreatedAtNano := r.createdAtNano,
    DeletedAtNano := r.deletedAtNano, TotalContainers := r.totalNumber,
    Timestamp := r.timestamp }

/-- `PostgresRepository.GetApplicationsHistory` (part_001 lines 100-127).
`db` stands for `r.dbpool.Query`; the second component of the result is the
list of queries issued to the pool during the call. -/
def GetApplicationsHistory (db : Builder → Except String (List Row))
    (filters : HistoryFilters) :
    Except String (List AppHistory) × List Builder :=
  let queryBuilder :=
    applyHistoryFilters
      (((NewBuilder.SelectAll "history" "").Conditionp "history_type" "="
          (SqlValue.str "application")).OrderBy "timestamp"
        OrderDir.descending)
      filters
  let res := match db queryBuilder with
    | .error e =>
      .error ("could not get applications history from DB: " ++ e)
    | .ok rows => .ok (rows.map scanAppRow)
  (res, [queryBuilder])

/-- `PostgresRepository.GetContainersHistory` (part_001 lines 129-156). -/
def GetContainersHistory (db : Builder → Except String (List Row))
    (filters : HistoryFilters) :
    Except String (List ContainerHistory) × List Builder :=
  let queryBuilder :=
    applyHistoryFilters
      (((NewBuilder.SelectAll "history" "").Conditionp "history_type" "="
          (SqlValue.str "container")).OrderBy "timestamp"
        OrderDir.descending)
      filters
  let res := match db queryBuilder with
    | .error e =>
      .error ("could not get container history from DB: " ++ e)
    | .ok rows => .ok (rows.map scanContainerRow)
  (res, [queryBuilder])

/-- The condition clauses contributed by the optional time-range filters: a
`timestamp >= TimestampStart.UnixNano()` condition iff `TimestampStart` is
non-nil followed by a `timestamp <= TimestampEnd.UnixNano()` condition iff
`TimestampEnd` is non-nil. -/
def timeRangeConditions (filters : HistoryFilters) :
    List (String × String × SqlValue) :=
  (filters.TimestampStart.toList.map fun t =>
      ("timestamp", ">=", SqlValue.int t.UnixNano))
    ++ (filters.TimestampEnd.toList.map fun t =>
      ("timestamp", "<=", SqlValue.int t.UnixNano))

/-- C9: for every `HistoryFilters` value and every pool behaviour,
`GetApplicationsHistory` issues exactly one query, selecting all of
`history` with a `history_type = "application"` condition, ordered by
`timestamp` descending, with the time-range conditions present iff the
corresponding filter field is non-nil and LIMIT / OFFSET clauses exactly
when `Limit` / `Offset` are non-nil; `GetContainersHistory` does likewise
with `history_type = "container"`. -/
theorem history_queries_shape (db dbc : Builder → Except String (List Row))
    (filters : HistoryFilters) :
    ((GetApplicationsHistory db filters).2
      = [{ selects := [("history", "")]
           conditions := ("history_type", "=", SqlValue.str "application")
             :: timeRangeConditions filters
           orderBys := [("timestamp", OrderDir.descending)]
           limit := filters.Limit
           offset := filters.Offset }])
    ∧ ((GetContainersHistory dbc filters).2
      = [{ selects := [("history", "")]
           conditions := ("history_type", "=", SqlValue.str "container")
             :: timeRangeConditions filters
           orderBys := [("timestamp", OrderDir.descending)]
           limit := filters.Limit
           offset := filters.Offset }]) := by
  obtain ⟨ts, te, off, lim⟩ := filters
  cases ts <;> cases te <;> cases off <;> cases lim <;>
    exact ⟨rfl, rfl⟩

/-! SPA static-asset handler (internal/webservice/routes.go). -/

/-- The error returned by `os.Stat`, as the handler distinguishes it:
`nil` is modelled by `none` at the use sites, a not-exist error by
`notExist`, any other stat failure (for example a permission error while
traversing the path) by `other` with its message. -/
inductive StatError where
  | notExist
  | other (msg : String)
deriving DecidableEq

/-- The one observation `serveSPA` makes of a `os.FileInfo`. -/
structure FileInfo where
  isDir : Bool
deriving DecidableEq

/-- `os.IsNotExist(err)`: true exactly on a non-nil not-exist error. -/
def isNotExist : Option StatError → Bool
  | some StatError.notExist => true
  | _ => false

/-- The responses `serveSPA` can produce. -/
inductive SpaResponse where
  | serveIndex
  | notFound
  | serveFile
deriving DecidableEq

/-- The `os.Stat` contract: the error is nil iff the `FileInfo` is non-nil. -/
def statContract (r : Option FileInfo × Option StatError) : Prop :=
  r.2 = none ↔ r.1.isSome = true

/-- `WebService.serveSPA` (routes.go lines 194-208), as a function of the
outcome of `os.Stat` on the joined path: `(fi, err)` with a possibly-nil
`FileInfo` and a possibly-nil error.  The Go condition
`os.IsNotExist(err) || fi.IsDir()` short-circuits, and evaluating
`fi.IsDir()` with `fi == nil` is a nil-pointer dereference, modelled as the
`none` outcome (a panic); `some` outcomes are the written response. -/
def serveSPA (statResult : Option FileInfo × Option StatError) :
    Option SpaResponse :=
  let fi := statResult.1
  let err := statResult.2
  if isNotExist err then some SpaResponse.serveIndex
  else match fi with
    | none => none
    | some f =>
      if f.isDir then some SpaResponse.serveIndex
      else if err.isSome then some SpaResponse.notFound
      else some SpaResponse.serveFile

/-- C10 (code bug): when `os.Stat` fails with an error that is not a
not-exist error — so, per the `os.Stat` contract, the returned `FileInfo` is
nil — `serveSPA` evaluates `fi.IsDir()` on the nil `FileInfo` and panics
instead of responding 404 Not Found; consequently the `http.NotFound` branch
is unreachable on every stat outcome satisfying the contract. -/
theorem serveSPA_panics_on_stat_error :
    (serveSPA (none, some (StatError.other "permission denied")) = none)
    ∧ (serveSPA (none, some (StatError.other "permission denied"))
        ≠ some SpaResponse.notFound)
    ∧ (∀ r, statContract r → serveSPA r ≠ some SpaResponse.notFound) := by
  refine ⟨rfl, by decide, ?_⟩
  rintro ⟨fi, err⟩ hc
  cases fi with
  | none =>
    cases err with
    | none => simp [statContract] at hc
    | some e => cases e <;> simp [serveSPA, isNotExist]
  | some f =>
    cases err with
    | none => cases hf : f.isDir <;> simp [serveSPA, isNotExist, hf]
    | some e => simp [statContract] at hc

/-- C10 witness: a concrete healthy stat outcome (an existing plain file)
satisfies the `os.Stat` contract and is not answered with 404. -/
theorem serveSPA_panics_on_stat_error_witness :
    statContract (some { isDir := false }, none)
    ∧ serveSPA (some { isDir := false }, none) ≠ some SpaResponse.notFound :=
  ⟨by simp [statContract], serveSPA_panics_on_stat_error.2.2
    (some { isDir := false }, none) (by simp [statContract])⟩

end UHS
